import Mathlib

/-!
Verification model of `iota-channels-lite` (AleBuser/iota-channels-lite).

The repository is a thin glue layer over the external `iota_streams` /
`iota_client` crates.  The two files under verification are
`src/channels_lite/channel_author.rs` and
`src/channels_lite/channel_subscriber.rs`.  The external crates are, per the
specification, black-box collaborators: a Transport with
`publish(bytes) -> Link` and `fetch(link) -> bytes`.  We model them as an
explicit in-memory ledger of envelopes whose publish operation always
succeeds and returns a fresh message id; transport failures are outside the
repository code and every claim under study quantifies over successful or
local behaviour only.  The glue code itself (field updates, link selection,
content-type filtering, error propagation versus printing) is translated
statement by statement from the Rust source.
-/

namespace ChannelsLite

/-- Content types of streams messages (the `message::ANNOUNCE`,
`message::SUBSCRIBE`, `message::KEYLOAD`, `message::SIGNED_PACKET`,
`message::TAGGED_PACKET`, `message::UNSUBSCRIBE` byte constants of the
external `iota_streams` crate, modelled as a closed enumeration). -/
inductive ContentType where
  | announce
  | subscribe
  | keyload
  | signedPacket
  | taggedPacket
  | unsubscribe
  | other
deriving DecidableEq, Repr

/-- A tangle `Address`: channel application instance plus message id.
Mirrors `iota_streams::app_channels::api::tangle::Address` as used by the
repository, where both components are handled as strings
(`channel_address: String`, msg tags as `String`). -/
structure Address where
  appinst : String
  msgid : String
deriving DecidableEq, Repr

/-- `Address::from_str(channel_address, tag)`.  The real parser is fallible
(returns `Result`), but the repository either unwraps it or bails; in this
model the parser succeeds on every string pair (including the empty
`String::default()` sentinel tag), so the `.unwrap()` calls of the source
never panic and the `bail!` branch of `add_subscriber` is unreachable.
Where a claim depends on this choice the analysis notes it. -/
def Address.fromStr (ch tag : String) : Address := ⟨ch, tag⟩

/-- `Address::default()`: both components empty. -/
def Address.defaultAddr : Address := ⟨"", ""⟩

/-- One message as stored on the transport: content type, its own link, the
link of the message it chains off (`none` only for the announcement), and
the public/masked payload halves passed by the author. -/
structure Envelope where
  contentType : ContentType
  link : Address
  prevLink : Option Address
  publicBytes : String
  maskedBytes : String
deriving DecidableEq, Repr

/-- The external transport: the list of published envelopes plus a counter
from which fresh message ids are drawn. -/
structure Ledger where
  msgs : List Envelope
  fresh : Nat
deriving DecidableEq, Repr

/-- The message id the next publish on this ledger will produce. -/
def Ledger.freshMsgId (L : Ledger) : String := "m" ++ toString L.fresh

/-- External streams send (`send_announce`, `send_keyload_for_everyone`,
`send_signed_packet`, `send_tagged_packet` all publish one envelope chained
off the link argument and return its fresh link).  Publishing always
succeeds in the model: the spec treats the transport as a black box and
every claim concerns the glue code around it. -/
def Ledger.send (L : Ledger) (ch : String) (ct : ContentType)
    (prev : Option Address) (pub masked : String) : Ledger × Address :=
  let link : Address := ⟨ch, L.freshMsgId⟩
  (⟨L.msgs ++ [⟨ct, link, prev, pub, masked⟩], L.fresh + 1⟩, link)

/-- Fetch the envelope published at an address, if any. -/
def Ledger.find (L : Ledger) (a : Address) : Option Envelope :=
  L.msgs.find? (fun e => e.link = a)

/-- Errors the author glue can return (`anyhow::Result` in the source).
`streamsError` stands for an error propagated with `?` from the external
crate; `addressError` for the `bail!` in `add_subscriber`.  Note there is no
`NoKeyloadYet` or similar constructor: no such error exists anywhere in the
source. -/
inductive ChannelError where
  | streamsError (msg : String)
  | addressError (msg : String)
deriving DecidableEq, Repr

namespace ChannelAuthor

/-- The author channel state (`channel_author.rs`, `struct Channel`): the
`author` handle and `send_opt` are external and carry no state the claims
mention beyond the ledger itself.  The three tag fields use the source's
`String::default()` (empty string) as the "not set" sentinel. -/
structure Channel where
  channel_address : String
  announcement_id : String
  last_keyload_tag : String
  previous_msg_tag : String
deriving DecidableEq, Repr

/-- `Channel::open` (named `openChannel` here because `open` is a keyword):
sends the announcement, records its msgid in `announcement_id`, and returns
`(channel_address, announcement_id)`.  The source performs no check whether
the channel was already opened. -/
def Channel.openChannel (c : Channel) (L : Ledger) :
    Except ChannelError ((Channel × Ledger) × (String × String)) :=
  let sent := L.send c.channel_address .announce none "" ""
  let c' := { c with announcement_id := sent.2.msgid }
  .ok ((c', sent.1), (c.channel_address, sent.2.msgid))

/-- `Channel::add_subscriber`: builds the subscription address, runs the
external `receive_subscribe` (modelled: the envelope at that address must
exist and be a `Subscribe` message), then sends a keyload chained off the
announcement link (`send_keyload_for_everyone(&announce_link)`) and stores
its msgid in `last_keyload_tag`.  `previous_msg_tag` is not touched. -/
def Channel.add_subscriber (c : Channel) (L : Ledger) (subscribe_tag : String) :
    Except ChannelError ((Channel × Ledger) × String) :=
  let subscribe_link := Address.fromStr c.channel_address subscribe_tag
  match L.find subscribe_link with
  | none => .error (.streamsError "receive_subscribe: message not found")
  | some env =>
    if env.contentType = .subscribe then
      let announce_link := Address.fromStr c.channel_address c.announcement_id
      let sent := L.send c.channel_address .keyload (some announce_link) "" ""
      let c' := { c with last_keyload_tag := sent.2.msgid }
      .ok ((c', sent.1), sent.2.msgid)
    else .error (.streamsError "receive_subscribe: not a subscribe message")

/-- `Channel::write_signed`: if `previous_msg_tag` is unset (empty) the
packet chains off the address built from `last_keyload_tag` (whatever that
is, including the empty sentinel); otherwise off `previous_msg_tag`.
Afterwards `previous_msg_tag` is set to the new msgid, which is returned.
There is no check that a keyload was ever sent. -/
def Channel.write_signed (c : Channel) (L : Ledger) (pub masked : String) :
    Except ChannelError ((Channel × Ledger) × String) :=
  let sent :=
    if c.previous_msg_tag = "" then
      let keyload_link := Address.fromStr c.channel_address c.last_keyload_tag
      L.send c.channel_address .signedPacket (some keyload_link) pub masked
    else
      L.send c.channel_address .signedPacket
        (some (Address.fromStr c.channel_address c.previous_msg_tag)) pub masked
  let c' := { c with previous_msg_tag := sent.2.msgid }
  .ok ((c', sent.1), sent.2.msgid)

/-- `Channel::write_tagged`: same link selection as `write_signed` (the
leading unused `_keyload_link` binding of the source is a no-op and is
omitted), but the source never assigns `self.previous_msg_tag`: the channel
state is returned unchanged. -/
def Channel.write_tagged (c : Channel) (L : Ledger) (pub masked : String) :
    Except ChannelError ((Channel × Ledger) × String) :=
  let sent :=
    if c.previous_msg_tag = "" then
      let keyload_link := Address.fromStr c.channel_address c.last_keyload_tag
      L.send c.channel_address .taggedPacket (some keyload_link) pub masked
    else
      L.send c.channel_address .taggedPacket
        (some (Address.fromStr c.channel_address c.previous_msg_tag)) pub masked
  .ok ((c, sent.1), sent.2.msgid)

end ChannelAuthor

/-- Result of a subscriber operation: `ok` mirrors `Ok`, `err` an error
propagated with `?` (`anyhow::Result`), and `panicked` an uncaught
`.unwrap()` panic. -/
inductive RunResult (α : Type) where
  | ok (val : α)
  | err (msg : String)
  | panicked (msg : String)
deriving DecidableEq, Repr

/-- One message as fetched by the subscriber through
`recv_messages_with_options`, carrying the outcomes of the external
operations applied to it: whether `parse_header` succeeds, the header's
content type, whether the matching `unwrap_*` call of the streams crate
succeeds (signature/MAC/key checks), and on success the utf-8 payload
halves it yields. -/
structure FetchedMsg where
  headerOk : Bool
  contentType : ContentType
  unwrapOk : Bool
  publicBytes : String
  maskedBytes : String
deriving DecidableEq, Repr

/-- Modelled from the spec: `Payload::unwrap_data` of `src/utils/payload`
(the PayloadCodec half-decoder), whose source is not in the repository
snapshot.  Per the spec it is pure and total except for malformed-byte
failures (`DecodeError`) and must tolerate an absent half.  Concretely:
the empty string decodes to an absent half, the distinguished string `!`
is malformed (`none`, a `DecodeError`), anything else decodes to itself. -/
def unwrapData (s : String) : Option (Option String) :=
  if s = "" then some none
  else if s = "!" then none
  else some (some s)

namespace ChannelSubscriber

/-- The subscriber channel state (`channel_subscriber.rs`, `struct
Channel`): the `subscriber` handle and `send_opt` are external. -/
structure Channel where
  is_connected : Bool
  announcement_link : Address
  subscription_link : Address
  channel_address : String
deriving DecidableEq, Repr

/-- The `found_valid_msg` loop of `connect`: walk the fetched list; a
header-parse failure propagates with `?`; the first `ANNOUNCE` message is
unwrapped (`unwrap_announcement`, its failure also propagating with `?`)
and stops the loop with `true`; any other message is skipped. -/
def findAnnounce : List FetchedMsg → RunResult Bool
  | [] => .ok false
  | m :: rest =>
    if m.headerOk then
      if m.contentType = .announce then
        if m.unwrapOk then .ok true else .err "unwrap_announcement"
      else findAnnounce rest
    else .err "parse_header"

/-- `Channel::connect`: fetches at `announcement_link` (the fetch itself is
the external transport, modelled as the total function `fetch`), runs the
`found_valid_msg` loop; when a valid announcement was found it publishes a
`Subscribe` message (whose fresh msgid the external crate produces is the
parameter `subTag`), stores it as `subscription_link` and sets
`is_connected`; otherwise it only prints a notice.  Either way the returned
value is `Ok(subscription_link.msgid)` — in the not-found case that is the
msgid of `Address::default()`, the empty string. -/
def Channel.connect (c : Channel) (fetch : Address → List FetchedMsg)
    (subTag : String) : RunResult (Channel × String) :=
  match findAnnounce (fetch c.announcement_link) with
  | .err e => .err e
  | .panicked e => .panicked e
  | .ok found =>
    let c' :=
      if found then
        { c with subscription_link := ⟨c.channel_address, subTag⟩,
                 is_connected := true }
      else c
    .ok (c', c'.subscription_link.msgid)

/-- The message loop of `read_signed`: a header-parse failure propagates
with `?`; messages of content type `SIGNED_PACKET` are unwrapped — on
failure the error is only printed and the loop continues, on success both
payload halves go through `Payload::unwrap_data(...).unwrap()`, whose
failure panics; every other content type is skipped silently. -/
def processSigned : List FetchedMsg → RunResult (List (Option String × Option String))
  | [] => .ok []
  | m :: rest =>
    if m.headerOk then
      if m.contentType = .signedPacket then
        if m.unwrapOk then
          match unwrapData m.publicBytes, unwrapData m.maskedBytes with
          | some p, some q =>
            match processSigned rest with
            | .ok r => .ok ((p, q) :: r)
            | other => other
          | _, _ => .panicked "unwrap_data"
        else processSigned rest
      else processSigned rest
    else .err "parse_header"

/-- `Channel::read_signed`: when connected, fetch at the address built from
the tag and run the loop; when not connected, only print "Channel not
connected" — the empty response is still returned as `Ok`. -/
def Channel.read_signed (c : Channel) (fetch : Address → List FetchedMsg)
    (signed_packet_tag : String) :
    RunResult (List (Option String × Option String)) :=
  if c.is_connected then
    processSigned (fetch (Address.fromStr c.channel_address signed_packet_tag))
  else .ok []

/-- The message loop of `read_tagged`: identical to `processSigned` except
that it matches content type `TAGGED_PACKET` and the unwrap yields no
signer. -/
def processTagged : List FetchedMsg → RunResult (List (Option String × Option String))
  | [] => .ok []
  | m :: rest =>
    if m.headerOk then
      if m.contentType = .taggedPacket then
        if m.unwrapOk then
          match unwrapData m.publicBytes, unwrapData m.maskedBytes with
          | some p, some q =>
            match processTagged rest with
            | .ok r => .ok ((p, q) :: r)
            | other => other
          | _, _ => .panicked "unwrap_data"
        else processTagged rest
      else processTagged rest
    else .err "parse_header"

/-- `Channel::read_tagged`: same shape as `read_signed` over
`TAGGED_PACKET` messages, including the `Ok(empty)` result when the channel
is not connected. -/
def Channel.read_tagged (c : Channel) (fetch : Address → List FetchedMsg)
    (tagged_packet_tag : String) :
    RunResult (List (Option String × Option String)) :=
  if c.is_connected then
    processTagged (fetch (Address.fromStr c.channel_address tagged_packet_tag))
  else .ok []

/-- Modelled from the spec: the streams sequencing state behind
`Subscriber::gen_next_msg_ids` / `Subscriber::store_state_for_all`, which
live in the external `iota_streams` crate.  Per the spec the subscriber
keeps a sequencing cursor per publisher; with a single Author publishing a
single linear chain this is one counter, and the id the cursor derives for
the next expected message is modelled as the counter itself (the k-th
published message of the chain carries derived id k). -/
structure SeqState where
  cursor : Nat
deriving DecidableEq, Repr

/-- Modelled from the spec: `gen_next_msg_ids(false)` returns, per
publisher, the derived id of the next expected message together with its
sequence number — here the single pair derived from the cursor. -/
def gen_next_msg_ids (s : SeqState) : List (Nat × Nat) :=
  [(s.cursor, s.cursor)]

/-- Modelled from the spec: `store_state_for_all(next_id, seq_num)` advances
the stored sequencing state past the processed message, so the next
`gen_next_msg_ids` derives the id after it. -/
def store_state_for_all (_s : SeqState) (seqNum : Nat) : SeqState :=
  ⟨seqNum + 1⟩

/-- The `for (_pk, SequencingState(next_id, seq_num)) in ids` loop body of
`get_next_message`, over a ledger that currently holds the chain messages
with derived ids `0, …, count-1`: a derived id with no message on the
ledger is skipped (`recv_message_with_options(..).ok()` is `None`); an
existing message is processed (unwrapped per content type, result
discarded), the state stored past it and the `exists` flag set.  Returns
the new state, the ids processed in this pass, and the flag. -/
def pollFor (count : Nat) : List (Nat × Nat) → SeqState → SeqState × List Nat × Bool
  | [], s => (s, [], false)
  | (nextId, seqNum) :: rest, s =>
    if nextId < count then
      let s' := store_state_for_all s seqNum
      let r := pollFor count rest s'
      (r.1, nextId :: r.2.1, true)
    else
      let r := pollFor count rest s
      (r.1, r.2.1, r.2.2)

/-- `ChannelSubscriber::Channel::get_next_message`: the `while exists` loop,
written with explicit fuel since the source loop is unbounded.  Each pass
regenerates the candidate ids and walks them with `pollFor`; the loop stops
when a pass finds no message.  Besides the final sequencing state it
returns the list of derived ids processed, oldest first (the source prints
them and discards the unwrap results). -/
def get_next_message : Nat → Nat → SeqState → SeqState × List Nat
  | 0, _, s => (s, [])
  | fuel + 1, count, s =>
    let pass := pollFor count (gen_next_msg_ids s) s
    if pass.2.2 then
      let rest := get_next_message fuel count pass.1
      (rest.1, pass.2.1 ++ rest.2)
    else (pass.1, pass.2.1)

end ChannelSubscriber

/-- Specification-side description of `read_signed`'s successful result
(for comparison with the implementation): one `(public, masked)` pair per
fetched message whose content type is `SIGNED_PACKET` and whose unwrap and
payload decode succeed, in fetch order. -/
def goodSigned : List FetchedMsg → List (Option String × Option String)
  | [] => []
  | m :: rest =>
    if m.contentType = .signedPacket ∧ m.unwrapOk = true then
      match unwrapData m.publicBytes, unwrapData m.maskedBytes with
      | some p, some q => (p, q) :: goodSigned rest
      | _, _ => goodSigned rest
    else goodSigned rest

/-- Specification-side description of `read_tagged`'s successful result:
as `goodSigned`, restricted to content type `TAGGED_PACKET`. -/
def goodTagged : List FetchedMsg → List (Option String × Option String)
  | [] => []
  | m :: rest =>
    if m.contentType = .taggedPacket ∧ m.unwrapOk = true then
      match unwrapData m.publicBytes, unwrapData m.maskedBytes with
      | some p, some q => (p, q) :: goodTagged rest
      | _, _ => goodTagged rest
    else goodTagged rest

/-! ## Claim theorems -/

open ChannelAuthor

/-- C1 counterexample: from a state with `previous_msg_tag = "PREV"`,
`write_tagged` publishes successfully (returning msgid `"m0"`) but the
returned channel state is unchanged — `previous_msg_tag` is still
`"PREV"`, not the new link, contrary to the claim that every successful
tagged publish advances it. -/
theorem c1_counterexample :
    Channel.write_tagged ⟨"CH", "ANN", "K0", "PREV"⟩ ⟨[], 0⟩ "p" "m" =
      .ok ((⟨"CH", "ANN", "K0", "PREV"⟩,
        ⟨[⟨.taggedPacket, ⟨"CH", "m0"⟩, some ⟨"CH", "PREV"⟩, "p", "m"⟩], 1⟩), "m0") ∧
    ("PREV" : String) ≠ "m0" :=
  ⟨rfl, by decide⟩

/-- C1 (amended): every `write_signed` call publishes a new signed envelope
(appended to the ledger with the fresh msgid as its link) and sets
`previous_msg_tag` to that newly published envelope's msgid, which is also
the returned tag; every `write_tagged` call publishes its envelope the same
way and returns the new msgid, but leaves the channel state —
`previous_msg_tag` included — completely unchanged. -/
theorem c1_theorem (c : Channel) (L : Ledger) (pub masked : String) :
    c.write_signed L pub masked =
      .ok (({ c with previous_msg_tag := L.freshMsgId },
        ⟨L.msgs ++ [⟨.signedPacket, ⟨c.channel_address, L.freshMsgId⟩,
          some ⟨c.channel_address,
            if c.previous_msg_tag = "" then c.last_keyload_tag
            else c.previous_msg_tag⟩, pub, masked⟩], L.fresh + 1⟩),
        L.freshMsgId) ∧
    c.write_tagged L pub masked =
      .ok ((c,
        ⟨L.msgs ++ [⟨.taggedPacket, ⟨c.channel_address, L.freshMsgId⟩,
          some ⟨c.channel_address,
            if c.previous_msg_tag = "" then c.last_keyload_tag
            else c.previous_msg_tag⟩, pub, masked⟩], L.fresh + 1⟩),
        L.freshMsgId) := by
  unfold Channel.write_signed Channel.write_tagged
  by_cases h : c.previous_msg_tag = ""
  · simp only [if_pos h]
    exact ⟨rfl, rfl⟩
  · simp only [if_neg h]
    exact ⟨rfl, rfl⟩

/-- C2 counterexample: with `last_keyload_tag = "K0"` already set and a
valid subscribe message on the ledger, `add_subscriber` publishes a keyload
whose `prevLink` is the announcement address `⟨"CH","ANN"⟩`, not the last
keyload `⟨"CH","K0"⟩`; and while `last_keyload_tag` is updated to the new
msgid `"m0"`, `previous_msg_tag` stays `""` rather than becoming `"m0"`. -/
theorem c2_counterexample :
    Channel.add_subscriber ⟨"CH", "ANN", "K0", ""⟩
      ⟨[⟨.subscribe, ⟨"CH", "SUB"⟩, some ⟨"CH", "ANN"⟩, "", ""⟩], 0⟩ "SUB" =
      .ok ((⟨"CH", "ANN", "m0", ""⟩,
        ⟨[⟨.subscribe, ⟨"CH", "SUB"⟩, some ⟨"CH", "ANN"⟩, "", ""⟩,
          ⟨.keyload, ⟨"CH", "m0"⟩, some ⟨"CH", "ANN"⟩, "", ""⟩], 1⟩), "m0") ∧
    some (⟨"CH", "ANN"⟩ : Address) ≠ some ⟨"CH", "K0"⟩ ∧
    ("" : String) ≠ "m0" :=
  ⟨rfl, by decide, by decide⟩

/-- C2 (amended): every successful `add_subscriber` publishes a keyload
whose `prevLink` is always the announcement link (regardless of whether a
keyload was already sent), stores the new keyload msgid in
`last_keyload_tag` (which is also the returned tag), and leaves
`previous_msg_tag` unchanged. -/
theorem c2_theorem (c : Channel) (L : Ledger) (tag : String)
    (r : (Channel × Ledger) × String)
    (h : c.add_subscriber L tag = .ok r) :
    r.1.1.last_keyload_tag = r.2 ∧
    r.1.1.previous_msg_tag = c.previous_msg_tag ∧
    r.1.2.msgs = L.msgs ++
      [⟨.keyload, ⟨c.channel_address, L.freshMsgId⟩,
        some (Address.fromStr c.channel_address c.announcement_id), "", ""⟩] ∧
    r.2 = L.freshMsgId := by
  simp only [Channel.add_subscriber] at h
  split at h
  · exact absurd h (by simp)
  · split at h
    · injection h with h
      subst h
      exact ⟨rfl, rfl, rfl, rfl⟩
    · exact absurd h (by simp)

/-- C2 witness: the amended claim at a concrete input. -/
theorem c2_theorem_witness :
    ((⟨"CH", "ANN", "m0", ""⟩ : Channel)).last_keyload_tag = "m0" ∧
    ((⟨"CH", "ANN", "m0", ""⟩ : Channel)).previous_msg_tag =
      ((⟨"CH", "ANN", "K0", ""⟩ : Channel)).previous_msg_tag ∧
    (⟨[⟨.subscribe, ⟨"CH", "SUB"⟩, some ⟨"CH", "ANN"⟩, "", ""⟩,
       ⟨.keyload, ⟨"CH", "m0"⟩, some ⟨"CH", "ANN"⟩, "", ""⟩], 1⟩ : Ledger).msgs =
      (⟨[⟨.subscribe, ⟨"CH", "SUB"⟩, some ⟨"CH", "ANN"⟩, "", ""⟩], 0⟩ : Ledger).msgs ++
        [⟨.keyload, ⟨"CH",
            (⟨[⟨.subscribe, ⟨"CH", "SUB"⟩, some ⟨"CH", "ANN"⟩, "", ""⟩], 0⟩ : Ledger).freshMsgId⟩,
          some (Address.fromStr "CH" "ANN"), "", ""⟩] ∧
    ("m0" : String) =
      (⟨[⟨.subscribe, ⟨"CH", "SUB"⟩, some ⟨"CH", "ANN"⟩, "", ""⟩], 0⟩ : Ledger).freshMsgId :=
  c2_theorem ⟨"CH", "ANN", "K0", ""⟩
    ⟨[⟨.subscribe, ⟨"CH", "SUB"⟩, some ⟨"CH", "ANN"⟩, "", ""⟩], 0⟩ "SUB"
    ((⟨"CH", "ANN", "m0", ""⟩,
      ⟨[⟨.subscribe, ⟨"CH", "SUB"⟩, some ⟨"CH", "ANN"⟩, "", ""⟩,
        ⟨.keyload, ⟨"CH", "m0"⟩, some ⟨"CH", "ANN"⟩, "", ""⟩], 1⟩), "m0")
    rfl

/-- C3 counterexample: on a channel already announced (announcement id
`"A0"`, the announcement on the ledger), a second call of `openChannel`
returns `Ok` — no error is signaled — publishing a second `Announce`
envelope at the same channel address and overwriting `announcement_id`. -/
theorem c3_counterexample :
    Channel.openChannel ⟨"CH", "A0", "", ""⟩
      ⟨[⟨.announce, ⟨"CH", "A0"⟩, none, "", ""⟩], 1⟩ =
      .ok ((⟨"CH", "m1", "", ""⟩,
        ⟨[⟨.announce, ⟨"CH", "A0"⟩, none, "", ""⟩,
          ⟨.announce, ⟨"CH", "m1"⟩, none, "", ""⟩], 2⟩), ("CH", "m1")) :=
  rfl

/-- C3 (amended): `openChannel` performs no already-announced check: even
when `announcement_id` is already set, it succeeds, publishes another
`Announce` envelope at the same channel address and overwrites
`announcement_id` with the fresh msgid. -/
theorem c3_theorem (c : Channel) (L : Ledger)
    (h : c.announcement_id ≠ "") :
    c.openChannel L =
      .ok (({ c with announcement_id := L.freshMsgId },
        (L.send c.channel_address .announce none "" "").1),
        (c.channel_address, L.freshMsgId)) ∧
    ((L.send c.channel_address .announce none "" "").1).msgs =
      L.msgs ++ [⟨.announce, ⟨c.channel_address, L.freshMsgId⟩, none, "", ""⟩] :=
  ⟨rfl, rfl⟩

/-- C3 witness: the amended claim at a concrete input. -/
theorem c3_theorem_witness :
    Channel.openChannel ⟨"CH", "A0", "", ""⟩
      ⟨[⟨.announce, ⟨"CH", "A0"⟩, none, "", ""⟩], 1⟩ =
      .ok (({ (⟨"CH", "A0", "", ""⟩ : Channel) with
          announcement_id :=
            (⟨[⟨.announce, ⟨"CH", "A0"⟩, none, "", ""⟩], 1⟩ : Ledger).freshMsgId },
        ((⟨[⟨.announce, ⟨"CH", "A0"⟩, none, "", ""⟩], 1⟩ : Ledger).send "CH"
          .announce none "" "").1),
        ("CH", (⟨[⟨.announce, ⟨"CH", "A0"⟩, none, "", ""⟩], 1⟩ : Ledger).freshMsgId)) ∧
    (((⟨[⟨.announce, ⟨"CH", "A0"⟩, none, "", ""⟩], 1⟩ : Ledger).send "CH"
        .announce none "" "").1).msgs =
      (⟨[⟨.announce, ⟨"CH", "A0"⟩, none, "", ""⟩], 1⟩ : Ledger).msgs ++
        [⟨.announce, ⟨"CH",
          (⟨[⟨.announce, ⟨"CH", "A0"⟩, none, "", ""⟩], 1⟩ : Ledger).freshMsgId⟩,
          none, "", ""⟩] :=
  c3_theorem ⟨"CH", "A0", "", ""⟩ ⟨[⟨.announce, ⟨"CH", "A0"⟩, none, "", ""⟩], 1⟩
    (by decide)

/-- C5 counterexample: on a subscriber channel with `is_connected = false`,
`read_signed` and `read_tagged` both return `Ok` of the empty list (after
printing a notice) — a success result, not a `NotConnected` error — even
though readable messages are available at the address. -/
theorem c5_counterexample :
    ChannelSubscriber.Channel.read_signed ⟨false, ⟨"CH", "ANN"⟩, ⟨"", ""⟩, "CH"⟩
      (fun _ => [⟨true, .signedPacket, true, "x", "y"⟩]) "T" = .ok [] ∧
    ChannelSubscriber.Channel.read_tagged ⟨false, ⟨"CH", "ANN"⟩, ⟨"", ""⟩, "CH"⟩
      (fun _ => [⟨true, .taggedPacket, true, "x", "y"⟩]) "T" = .ok [] :=
  ⟨rfl, rfl⟩

/-- C5 (amended): with `is_connected = false`, `read_signed` and
`read_tagged` do not fetch or process anything, but the failure mode is not
an error value: both return `Ok` of the empty response list (the source
only prints "Channel not connected"). -/
theorem c5_theorem (c : ChannelSubscriber.Channel)
    (fetch : Address → List FetchedMsg) (tag1 tag2 : String)
    (h : c.is_connected = false) :
    c.read_signed fetch tag1 = .ok [] ∧ c.read_tagged fetch tag2 = .ok [] := by
  unfold ChannelSubscriber.Channel.read_signed ChannelSubscriber.Channel.read_tagged
  rw [h]
  exact ⟨rfl, rfl⟩

/-- C5 witness: the amended claim at a concrete input. -/
theorem c5_theorem_witness :
    ChannelSubscriber.Channel.read_signed ⟨false, ⟨"CH", "ANN"⟩, ⟨"", ""⟩, "CH"⟩
      (fun _ => []) "T1" = .ok [] ∧
    ChannelSubscriber.Channel.read_tagged ⟨false, ⟨"CH", "ANN"⟩, ⟨"", ""⟩, "CH"⟩
      (fun _ => []) "T2" = .ok [] :=
  c5_theorem ⟨false, ⟨"CH", "ANN"⟩, ⟨"", ""⟩, "CH"⟩ (fun _ => []) "T1" "T2" rfl

/-- C6 counterexample: with no keyload ever sent (`last_keyload_tag = ""`)
and nothing yet published, `write_signed` and `write_tagged` both return
`Ok` — publishing a packet chained off the address built from the empty
sentinel tag — instead of failing with a `NoKeyloadYet` error (no such
error exists anywhere in the source). -/
theorem c6_counterexample :
    Channel.write_signed ⟨"CH", "ANN", "", ""⟩ ⟨[], 0⟩ "p" "m" =
      .ok ((⟨"CH", "ANN", "", "m0"⟩,
        ⟨[⟨.signedPacket, ⟨"CH", "m0"⟩, some ⟨"CH", ""⟩, "p", "m"⟩], 1⟩), "m0") ∧
    Channel.write_tagged ⟨"CH", "ANN", "", ""⟩ ⟨[], 0⟩ "q" "n" =
      .ok ((⟨"CH", "ANN", "", ""⟩,
        ⟨[⟨.taggedPacket, ⟨"CH", "m0"⟩, some ⟨"CH", ""⟩, "q", "n"⟩], 1⟩), "m0") :=
  ⟨rfl, rfl⟩

/-- C6 (amended): `write_signed` and `write_tagged` perform no
keyload-present check.  With `last_keyload_tag` and `previous_msg_tag` both
unset they succeed (the transport and the address parser being modelled as
total), publishing an envelope whose `prevLink` is the address built from
the empty sentinel tag; no `NoKeyloadYet` error is ever produced. -/
theorem c6_theorem (c : Channel) (L : Ledger) (pub masked : String)
    (h1 : c.last_keyload_tag = "") (h2 : c.previous_msg_tag = "") :
    c.write_signed L pub masked =
      .ok (({ c with previous_msg_tag := L.freshMsgId },
        (L.send c.channel_address .signedPacket (some ⟨c.channel_address, ""⟩)
          pub masked).1), L.freshMsgId) ∧
    c.write_tagged L pub masked =
      .ok ((c,
        (L.send c.channel_address .taggedPacket (some ⟨c.channel_address, ""⟩)
          pub masked).1), L.freshMsgId) := by
  unfold Channel.write_signed Channel.write_tagged
  rw [h2]
  rw [if_pos rfl, if_pos rfl, h1]
  exact ⟨rfl, rfl⟩

/-- C6 witness: the amended claim at a concrete input. -/
theorem c6_theorem_witness :
    Channel.write_signed ⟨"CH", "ANN", "", ""⟩ ⟨[], 0⟩ "p" "m" =
      .ok (({ (⟨"CH", "ANN", "", ""⟩ : Channel) with
          previous_msg_tag := (⟨[], 0⟩ : Ledger).freshMsgId },
        ((⟨[], 0⟩ : Ledger).send "CH" .signedPacket (some ⟨"CH", ""⟩) "p" "m").1),
        (⟨[], 0⟩ : Ledger).freshMsgId) ∧
    Channel.write_tagged ⟨"CH", "ANN", "", ""⟩ ⟨[], 0⟩ "p" "m" =
      .ok ((⟨"CH", "ANN", "", ""⟩,
        ((⟨[], 0⟩ : Ledger).send "CH" .taggedPacket (some ⟨"CH", ""⟩) "p" "m").1),
        (⟨[], 0⟩ : Ledger).freshMsgId) :=
  c6_theorem ⟨"CH", "ANN", "", ""⟩ ⟨[], 0⟩ "p" "m" rfl rfl

/-- C7 counterexample: with both `previous_msg_tag` and `last_keyload_tag`
unset but `announcement_id = "ANN"` set, the published signed packet's
`prevLink` is the address built from the empty keyload tag, not the
announcement link — the claimed third-level fallback to the announcement
does not exist. -/
theorem c7_counterexample :
    Channel.write_signed ⟨"CH", "ANN", "", ""⟩ ⟨[], 0⟩ "p2" "m2" =
      .ok ((⟨"CH", "ANN", "", "m0"⟩,
        ⟨[⟨.signedPacket, ⟨"CH", "m0"⟩, some ⟨"CH", ""⟩, "p2", "m2"⟩], 1⟩), "m0") ∧
    some (⟨"CH", ""⟩ : Address) ≠ some ⟨"CH", "ANN"⟩ :=
  ⟨rfl, by decide⟩

/-- C7 (amended): the fallback for the published envelope's `prevLink` has
only two levels: `previous_msg_tag` if set, else the address built from
`last_keyload_tag` — even when that is the unset empty sentinel; the
announcement link is never used.  This holds for `write_signed` and
`write_tagged` alike. -/
theorem c7_theorem (c : Channel) (L : Ledger) (pub masked : String) :
    c.write_signed L pub masked =
      .ok (({ c with previous_msg_tag := L.freshMsgId },
        (L.send c.channel_address .signedPacket
          (some ⟨c.channel_address,
            if c.previous_msg_tag = "" then c.last_keyload_tag
            else c.previous_msg_tag⟩) pub masked).1), L.freshMsgId) ∧
    c.write_tagged L pub masked =
      .ok ((c,
        (L.send c.channel_address .taggedPacket
          (some ⟨c.channel_address,
            if c.previous_msg_tag = "" then c.last_keyload_tag
            else c.previous_msg_tag⟩) pub masked).1), L.freshMsgId) := by
  unfold Channel.write_signed Channel.write_tagged
  by_cases h : c.previous_msg_tag = ""
  · simp only [if_pos h]
    exact ⟨rfl, rfl⟩
  · simp only [if_neg h]
    exact ⟨rfl, rfl⟩

/-- C4 counterexample: on a connected channel, a signed packet whose
unwrap (signature verification) fails produces exactly the same result as
no message at all: `Ok []`.  Nothing in the returned result surfaces a
`SignatureInvalid` condition — the error is only printed. -/
theorem c4_counterexample :
    ChannelSubscriber.Channel.read_signed ⟨true, ⟨"CH", "ANN"⟩, ⟨"", ""⟩, "CH"⟩
      (fun _ => [⟨true, .signedPacket, false, "", ""⟩]) "T" = .ok [] ∧
    ChannelSubscriber.Channel.read_signed ⟨true, ⟨"CH", "ANN"⟩, ⟨"", ""⟩, "CH"⟩
      (fun _ => []) "T" = .ok [] :=
  ⟨rfl, rfl⟩

/-- C4 (amended): a fetched signed packet whose unwrap (signature check)
fails contributes nothing to `read_signed`'s returned result: the call
behaves exactly as if the message were absent (the error is only printed),
so the verification failure is not surfaced in the result and is
indistinguishable from message absence. -/
theorem c4_theorem (c : ChannelSubscriber.Channel) (m : FetchedMsg)
    (rest : List FetchedMsg) (tag : String)
    (hc : c.is_connected = true) (hh : m.headerOk = true)
    (hct : m.contentType = .signedPacket) (hu : m.unwrapOk = false) :
    c.read_signed (fun _ => m :: rest) tag = c.read_signed (fun _ => rest) tag := by
  unfold ChannelSubscriber.Channel.read_signed
  rw [hc]
  simp [ChannelSubscriber.processSigned, hh, hct, hu]

/-- C4 witness: the amended claim at a concrete input. -/
theorem c4_theorem_witness :
    ChannelSubscriber.Channel.read_signed ⟨true, ⟨"CH", "ANN"⟩, ⟨"", ""⟩, "CH"⟩
      (fun _ => ⟨true, .signedPacket, false, "", ""⟩ ::
        [⟨true, .signedPacket, true, "x", "y"⟩]) "T" =
    ChannelSubscriber.Channel.read_signed ⟨true, ⟨"CH", "ANN"⟩, ⟨"", ""⟩, "CH"⟩
      (fun _ => [⟨true, .signedPacket, true, "x", "y"⟩]) "T" :=
  c4_theorem ⟨true, ⟨"CH", "ANN"⟩, ⟨"", ""⟩, "CH"⟩ ⟨true, .signedPacket, false, "", ""⟩
    [⟨true, .signedPacket, true, "x", "y"⟩] "T" rfl rfl rfl rfl

/-- C9 counterexample: a subscriber whose announcement address resolves
only to a non-announce message gets `Ok` back from `connect` — carrying the
default (empty) subscription tag — with `is_connected` left `false`,
instead of the claimed `AnnouncementNotFound`/`MalformedAnnouncement`
error. -/
theorem c9_counterexample :
    ChannelSubscriber.Channel.connect ⟨false, ⟨"CH", "ANN"⟩, ⟨"", ""⟩, "CH"⟩
      (fun _ => [⟨true, .signedPacket, true, "x", "y"⟩]) "S0" =
      .ok (⟨false, ⟨"CH", "ANN"⟩, ⟨"", ""⟩, "CH"⟩, "") :=
  rfl

/-- Helper for C9: the `found_valid_msg` loop of `connect` reports
`Ok false` when every fetched message parses and none is an announce. -/
theorem findAnnounce_ok_false (l : List FetchedMsg)
    (h : ∀ m ∈ l, m.headerOk = true ∧ m.contentType ≠ .announce) :
    ChannelSubscriber.findAnnounce l = .ok false := by
  induction l with
  | nil => rfl
  | cons m rest ih =>
    obtain ⟨h1, h2⟩ := h m (List.mem_cons_self m rest)
    have hrest := ih (fun x hx => h x (List.mem_cons_of_mem m hx))
    simp [ChannelSubscriber.findAnnounce, h1, h2, hrest]

/-- C9 (amended): when the fetch at the announcement address succeeds but
none of the fetched messages is of content type `Announce` (all headers
parsing), `connect` does not fail: it returns `Ok` of the unchanged channel
state — so `is_connected` stays as it was, `false` for a fresh subscriber —
together with the current (default, empty) subscription tag.  Errors are
propagated only from the transport fetch, a header parse, or
`unwrap_announcement`. -/
theorem c9_theorem (c : ChannelSubscriber.Channel)
    (fetch : Address → List FetchedMsg) (subTag : String)
    (h : ∀ m ∈ fetch c.announcement_link,
      m.headerOk = true ∧ m.contentType ≠ .announce) :
    c.connect fetch subTag = .ok (c, c.subscription_link.msgid) := by
  unfold ChannelSubscriber.Channel.connect
  rw [findAnnounce_ok_false _ h]
  rfl

/-- C9 witness: the amended claim at a concrete input. -/
theorem c9_theorem_witness :
    ChannelSubscriber.Channel.connect ⟨false, ⟨"CH", "ANN"⟩, ⟨"", ""⟩, "CH"⟩
      (fun _ => [⟨true, .keyload, true, "", ""⟩]) "S0" =
      .ok (⟨false, ⟨"CH", "ANN"⟩, ⟨"", ""⟩, "CH"⟩,
        (Address.mk "" "").msgid) :=
  c9_theorem ⟨false, ⟨"CH", "ANN"⟩, ⟨"", ""⟩, "CH"⟩
    (fun _ => [⟨true, .keyload, true, "", ""⟩]) "S0" (by decide)

/-- C10 counterexample: a fetched signed packet that unwraps successfully
but whose public payload half is malformed makes `read_signed` panic in
`Payload::unwrap_data(..).unwrap()` — the call does not return `Ok` of the
per-message result list the claim describes. -/
theorem c10_counterexample :
    ChannelSubscriber.Channel.read_signed ⟨true, ⟨"CH", "ANN"⟩, ⟨"", ""⟩, "CH"⟩
      (fun _ => [⟨true, .signedPacket, true, "!", ""⟩]) "T" =
      .panicked "unwrap_data" ∧
    RunResult.panicked "unwrap_data" ≠
      .ok (goodSigned [⟨true, .signedPacket, true, "!", ""⟩]) :=
  ⟨rfl, by decide⟩

/-- Helper for C10: over a batch in which every header parses and every
successfully unwrapped signed packet also payload-decodes on both halves,
the signed-packet loop returns `Ok` of exactly the specified list. -/
theorem processSigned_ok (msgs : List FetchedMsg)
    (h : ∀ m ∈ msgs, m.headerOk = true ∧
      (m.contentType = .signedPacket → m.unwrapOk = true →
        (unwrapData m.publicBytes).isSome ∧ (unwrapData m.maskedBytes).isSome)) :
    ChannelSubscriber.processSigned msgs = .ok (goodSigned msgs) := by
  induction msgs with
  | nil => rfl
  | cons m rest ih =>
    obtain ⟨h1, h2⟩ := h m (List.mem_cons_self m rest)
    have hrest := ih (fun x hx => h x (List.mem_cons_of_mem m hx))
    by_cases hct : m.contentType = .signedPacket
    · by_cases hu : m.unwrapOk = true
      · obtain ⟨hp, hq⟩ := h2 hct hu
        obtain ⟨p, hp2⟩ := Option.isSome_iff_exists.mp hp
        obtain ⟨q, hq2⟩ := Option.isSome_iff_exists.mp hq
        simp [ChannelSubscriber.processSigned, goodSigned, h1, hct, hu,
          hp2, hq2, hrest]
      · simp [ChannelSubscriber.processSigned, goodSigned, h1, hct, hu, hrest]
    · simp [ChannelSubscriber.processSigned, goodSigned, h1, hct, hrest]

/-- Helper for C10: the tagged-packet analogue of `processSigned_ok`. -/
theorem processTagged_ok (msgs : List FetchedMsg)
    (h : ∀ m ∈ msgs, m.headerOk = true ∧
      (m.contentType = .taggedPacket → m.unwrapOk = true →
        (unwrapData m.publicBytes).isSome ∧ (unwrapData m.maskedBytes).isSome)) :
    ChannelSubscriber.processTagged msgs = .ok (goodTagged msgs) := by
  induction msgs with
  | nil => rfl
  | cons m rest ih =>
    obtain ⟨h1, h2⟩ := h m (List.mem_cons_self m rest)
    have hrest := ih (fun x hx => h x (List.mem_cons_of_mem m hx))
    by_cases hct : m.contentType = .taggedPacket
    · by_cases hu : m.unwrapOk = true
      · obtain ⟨hp, hq⟩ := h2 hct hu
        obtain ⟨p, hp2⟩ := Option.isSome_iff_exists.mp hp
        obtain ⟨q, hq2⟩ := Option.isSome_iff_exists.mp hq
        simp [ChannelSubscriber.processTagged, goodTagged, h1, hct, hu,
          hp2, hq2, hrest]
      · simp [ChannelSubscriber.processTagged, goodTagged, h1, hct, hu, hrest]
    · simp [ChannelSubscriber.processTagged, goodTagged, h1, hct, hrest]

/-- C10 (amended): on a connected channel, provided every fetched message's
header parses and every message of the requested content type that unwraps
successfully also payload-decodes on both halves, `read_signed` returns
`Ok` of one `(public, masked)` pair per fetched `SIGNED_PACKET` message
whose unwrap succeeded, in fetch order, messages of any other content type
contributing no entry and causing no error; `read_tagged` behaves
identically restricted to `TAGGED_PACKET`.  (A payload-decode failure
instead panics, and a header-parse failure fails the whole call — see the
counterexample.) -/
theorem c10_theorem (c : ChannelSubscriber.Channel)
    (msgs1 msgs2 : List FetchedMsg) (tag1 tag2 : String)
    (hc : c.is_connected = true)
    (h1 : ∀ m ∈ msgs1, m.headerOk = true ∧
      (m.contentType = .signedPacket → m.unwrapOk = true →
        (unwrapData m.publicBytes).isSome ∧ (unwrapData m.maskedBytes).isSome))
    (h2 : ∀ m ∈ msgs2, m.headerOk = true ∧
      (m.contentType = .taggedPacket → m.unwrapOk = true →
        (unwrapData m.publicBytes).isSome ∧ (unwrapData m.maskedBytes).isSome)) :
    c.read_signed (fun _ => msgs1) tag1 = .ok (goodSigned msgs1) ∧
    c.read_tagged (fun _ => msgs2) tag2 = .ok (goodTagged msgs2) := by
  unfold ChannelSubscriber.Channel.read_signed ChannelSubscriber.Channel.read_tagged
  rw [hc]
  exact ⟨processSigned_ok msgs1 h1, processTagged_ok msgs2 h2⟩

/-- C10 witness: the amended claim at a concrete input — a batch with a
valid signed packet, a keyload (skipped) and a signed packet with a failed
unwrap (skipped) yields exactly the one decoded pair. -/
theorem c10_theorem_witness :
    ChannelSubscriber.Channel.read_signed ⟨true, ⟨"CH", "ANN"⟩, ⟨"", ""⟩, "CH"⟩
      (fun _ => [⟨true, .signedPacket, true, "x", "y"⟩, ⟨true, .keyload, true, "", ""⟩,
        ⟨true, .signedPacket, false, "z", "w"⟩]) "T1" =
      .ok (goodSigned [⟨true, .signedPacket, true, "x", "y"⟩, ⟨true, .keyload, true, "", ""⟩,
        ⟨true, .signedPacket, false, "z", "w"⟩]) ∧
    ChannelSubscriber.Channel.read_tagged ⟨true, ⟨"CH", "ANN"⟩, ⟨"", ""⟩, "CH"⟩
      (fun _ => [⟨true, .taggedPacket, true, "u", ""⟩]) "T2" =
      .ok (goodTagged [⟨true, .taggedPacket, true, "u", ""⟩]) :=
  c10_theorem ⟨true, ⟨"CH", "ANN"⟩, ⟨"", ""⟩, "CH"⟩
    [⟨true, .signedPacket, true, "x", "y"⟩, ⟨true, .keyload, true, "", ""⟩,
      ⟨true, .signedPacket, false, "z", "w"⟩]
    [⟨true, .taggedPacket, true, "u", ""⟩] "T1" "T2" rfl (by decide) (by decide)

/-- Helper for C8: once the sequencing cursor has reached the end of the
ledger, a poll finds nothing, processes nothing and leaves the state
unchanged. -/
theorem get_next_message_done (fuel count : Nat) (s : ChannelSubscriber.SeqState)
    (h : count ≤ s.cursor) :
    ChannelSubscriber.get_next_message fuel count s = (s, []) := by
  cases fuel with
  | zero => rfl
  | succ n =>
    have hn : ¬ s.cursor < count := not_lt.mpr h
    simp [ChannelSubscriber.get_next_message, ChannelSubscriber.pollFor,
      ChannelSubscriber.gen_next_msg_ids, hn]

/-- Helper for C8: with enough fuel the poll loop drains the ledger — the
final sequencing cursor is the larger of the start cursor and the number of
chain messages on the ledger. -/
theorem get_next_message_cursor (fuel : Nat) :
    ∀ (count : Nat) (s : ChannelSubscriber.SeqState), count - s.cursor < fuel →
      (ChannelSubscriber.get_next_message fuel count s).1.cursor =
        max s.cursor count := by
  induction fuel with
  | zero =>
    intro count s h
    exact absurd h (Nat.not_lt_zero _)
  | succ n ih =>
    intro count s h
    by_cases hlt : s.cursor < count
    · have hstep : ChannelSubscriber.get_next_message (n + 1) count s =
          ((ChannelSubscriber.get_next_message n count ⟨s.cursor + 1⟩).1,
            s.cursor :: (ChannelSubscriber.get_next_message n count ⟨s.cursor + 1⟩).2) := by
        simp [ChannelSubscriber.get_next_message, ChannelSubscriber.pollFor,
          ChannelSubscriber.gen_next_msg_ids, ChannelSubscriber.store_state_for_all, hlt]
      rw [hstep]
      show (ChannelSubscriber.get_next_message n count ⟨s.cursor + 1⟩).1.cursor =
        max s.cursor count
      rw [ih count ⟨s.cursor + 1⟩ (by show count - (s.cursor + 1) < n; omega)]
      show max (s.cursor + 1) count = max s.cursor count
      omega
    · have hle : count ≤ s.cursor := not_lt.mp hlt
      rw [get_next_message_done (n + 1) count s hle]
      show s.cursor = max s.cursor count
      omega

/-- C8: polling is idempotent — after a first `get_next_message` run with
enough fuel to drain the current ledger (`count` chain messages, fuel
`count + 1`, from any sequencing cursor), a second run with no new messages
published in between processes the empty list of messages: every id the
first run processed and stored via `store_state_for_all` is past the
advanced cursor, so no processed message is ever processed again. -/
theorem c8_theorem (count fuel c0 : Nat) :
    (ChannelSubscriber.get_next_message fuel count
      (ChannelSubscriber.get_next_message (count + 1) count ⟨c0⟩).1).2 = [] := by
  have h1 : (ChannelSubscriber.get_next_message (count + 1) count
      (⟨c0⟩ : ChannelSubscriber.SeqState)).1.cursor = max c0 count :=
    get_next_message_cursor (count + 1) count ⟨c0⟩ (by simp; omega)
  have h2 : count ≤ (ChannelSubscriber.get_next_message (count + 1) count
      (⟨c0⟩ : ChannelSubscriber.SeqState)).1.cursor := by
    rw [h1]; omega
  rw [get_next_message_done fuel count _ h2]

end ChannelsLite
